import Mathlib

/-!
Verification of the poseshift-datadog generation pipeline.

Shallow embedding of the TypeScript sources under functions/src:
geminiService.ts (retryOperation, generatePoseDescription, generatePoseImage,
generateWithPose) and datadogApi.ts (sendMetric, sendLog, LLMMetrics).

Asynchronous effectful code is embedded as pure functions: the external world
(remote generation responses per attempt, the JSON parser, environment
configuration and HTTP delivery outcomes) is a record of oracles, and the
observable side effects (span operations, remote calls, metric and log
deliveries) are an explicit event list returned next to the result.
-/

/-- Thrown JavaScript values as seen by catch blocks: an Error object carries a
message; any other thrown value is only distinguishable as not-an-Error. -/
inductive JsError where
  | jsError (message : String)
  | nonError
deriving DecidableEq, Repr

/-- Translation of the catch-side expression in generateWithPose:
error instanceof Error ? error.message : "Unknown error". A none stands for
the undefined value thrown when lastError was never assigned. -/
def errMessage : Option JsError → String
  | some (JsError.jsError m) => m
  | some JsError.nonError => "Unknown error"
  | none => "Unknown error"

/-- Observable result of one run of the retry loop of retryOperation
(geminiService.ts lines 47-74): how many times the operation body was invoked,
how many fixed delays were slept, and the final outcome. The error side is an
Option because exhausting a loop that never ran throws the uninitialized
lastError, i.e. undefined. -/
structure RetryTrace (E T : Type) where
  invocations : Nat
  delays : Nat
  result : Except (Option E) T

/-- Body of the for loop in retryOperation. attempt is the 1-indexed loop
counter; lastError the mutable variable of the source; invs and dels
accumulate the observable counts. On success the loop returns at once; on
failure it sleeps only when attempt < maxAttempts, then continues; when the
counter passes maxAttempts the loop exits and lastError is thrown. -/
def retryLoop (op : Nat → Except E T) (maxAttempts : Nat) (attempt : Nat)
    (lastError : Option E) (invs dels : Nat) : RetryTrace E T :=
  if _h : attempt ≤ maxAttempts then
    match op attempt with
    | Except.ok v => ⟨invs + 1, dels, Except.ok v⟩
    | Except.error e =>
      if attempt < maxAttempts then
        retryLoop op maxAttempts (attempt + 1) (some e) (invs + 1) (dels + 1)
      else
        retryLoop op maxAttempts (attempt + 1) (some e) (invs + 1) dels
  else
    ⟨invs, dels, Except.error lastError⟩
termination_by maxAttempts + 1 - attempt
decreasing_by
  all_goals omega

/-- Embedding of retryOperation (geminiService.ts lines 47-74): the loop is
entered at attempt 1 with lastError uninitialized. The operation takes the
1-indexed attempt number; the fixed delayMs only scales the slept time, so the
trace records the number of sleeps. -/
def retryOperation (op : Nat → Except E T) (maxAttempts : Nat) : RetryTrace E T :=
  retryLoop op maxAttempts 1 none 0 0

theorem retryLoop_all_fail (op : Nat → Except E T) (e : Nat → E) (N : Nat) :
    ∀ d a le invs dels, a + d = N → 1 ≤ a →
      (∀ k, a ≤ k → k ≤ N → op k = Except.error (e k)) →
      retryLoop op N a le invs dels =
        ⟨invs + (d + 1), dels + d, Except.error (some (e N))⟩ := by
  intro d
  induction d with
  | zero =>
    intro a le invs dels ha h1 hfail
    have haN : a = N := by omega
    rw [retryLoop]
    rw [dif_pos (by omega)]
    rw [hfail a (le_refl a) (by omega)]
    dsimp only
    rw [if_neg (by omega)]
    rw [retryLoop]
    rw [dif_neg (by omega)]
    simp [haN]
  | succ d ih =>
    intro a le invs dels ha h1 hfail
    rw [retryLoop]
    rw [dif_pos (by omega)]
    rw [hfail a (le_refl a) (by omega)]
    dsimp only
    rw [if_pos (by omega)]
    rw [ih (a + 1) (some (e a)) (invs + 1) (dels + 1) (by omega) (by omega)
      (fun k hk hk2 => hfail k (by omega) hk2)]
    simp only [RetryTrace.mk.injEq]
    refine ⟨by omega, by omega, trivial⟩

theorem retryLoop_first_success (op : Nat → Except E T) (v : T) (N K : Nat) :
    ∀ d a le invs dels, a + d = K → 1 ≤ a → K ≤ N →
      (∀ k, a ≤ k → k < K → ∃ err, op k = Except.error err) →
      op K = Except.ok v →
      retryLoop op N a le invs dels = ⟨invs + (d + 1), dels + d, Except.ok v⟩ := by
  intro d
  induction d with
  | zero =>
    intro a le invs dels ha h1 hKN hfail hok
    have haK : a = K := by omega
    rw [retryLoop]
    rw [dif_pos (by omega)]
    rw [haK, hok]
    dsimp only
    simp
  | succ d ih =>
    intro a le invs dels ha h1 hKN hfail hok
    obtain ⟨err, herr⟩ := hfail a (le_refl a) (by omega)
    rw [retryLoop]
    rw [dif_pos (by omega)]
    rw [herr]
    dsimp only
    rw [if_pos (by omega)]
    rw [ih (a + 1) (some err) (invs + 1) (dels + 1) (by omega) (by omega) hKN
      (fun k hk hk2 => hfail k (by omega) hk2) hok]
    simp only [RetryTrace.mk.injEq]
    refine ⟨by omega, by omega, trivial⟩

/-- C1: an operation failing on every one of N >= 1 attempts is invoked exactly
N times, the fixed delay is slept exactly N - 1 times (only between
consecutive attempts, none after the last), and the error of attempt N is
propagated unchanged. -/
theorem retryOperation_all_fail (op : Nat → Except E T) (e : Nat → E) (N : Nat)
    (hN : 1 ≤ N) (hfail : ∀ k, 1 ≤ k → k ≤ N → op k = Except.error (e k)) :
    retryOperation op N = ⟨N, N - 1, Except.error (some (e N))⟩ := by
  have h := retryLoop_all_fail op e N (N - 1) 1 none 0 0 (by omega) (le_refl 1) hfail
  rw [retryOperation, h]
  simp only [RetryTrace.mk.injEq]
  refine ⟨by omega, by omega, trivial⟩

/-- Witness for C1 at N = 3 with an operation failing every attempt. -/
theorem retryOperation_all_fail_witness :
    retryOperation (fun _ => (Except.error "boom" : Except String Nat)) 3 =
      ⟨3, 2, Except.error (some "boom")⟩ :=
  retryOperation_all_fail (fun _ => Except.error "boom") (fun _ => "boom") 3
    (by decide) (fun k _ _ => rfl)

/-- C2: an operation succeeding on attempt K <= N (after failing on attempts
1..K-1) is invoked exactly K times, no further attempts occur, and that
attempt's result is returned. -/
theorem retryOperation_first_success (op : Nat → Except E T) (v : T) (N K : Nat)
    (hK : 1 ≤ K) (hKN : K ≤ N)
    (hfail : ∀ k, 1 ≤ k → k < K → ∃ err, op k = Except.error err)
    (hok : op K = Except.ok v) :
    retryOperation op N = ⟨K, K - 1, Except.ok v⟩ := by
  have h := retryLoop_first_success op v N K (K - 1) 1 none 0 0 (by omega)
    (le_refl 1) hKN hfail hok
  rw [retryOperation, h]
  simp only [RetryTrace.mk.injEq]
  refine ⟨by omega, by omega, trivial⟩

/-- Witness for C2 at N = 3, K = 2: one failure, then success. -/
theorem retryOperation_first_success_witness :
    retryOperation
      (fun a => if a = 1 then (Except.error "once" : Except String Nat) else Except.ok 42) 3 =
      ⟨2, 1, Except.ok 42⟩ :=
  retryOperation_first_success
    (fun a => if a = 1 then Except.error "once" else Except.ok 42) 42 3 2
    (by decide) (by decide)
    (fun k h1 h2 => ⟨"once", by interval_cases k; rfl⟩)
    rfl

/-- C9: with a non-positive maxAttempts the loop body never runs, so the
operation is never invoked, no delay is slept, and the uninitialized lastError
(the undefined value, embedded as none) is thrown. -/
theorem retryOperation_nonpositive (op : Nat → Except E T) (m : Nat) (hm : m ≤ 0) :
    retryOperation op m = ⟨0, 0, Except.error none⟩ := by
  have hm0 : m = 0 := by omega
  subst hm0
  rw [retryOperation, retryLoop]
  rw [dif_neg (by omega)]

/-- Witness for C9 at maxAttempts = 0. -/
theorem retryOperation_nonpositive_witness :
    retryOperation (fun _ => (Except.ok 7 : Except String Nat)) 0 =
      ⟨0, 0, Except.error none⟩ :=
  retryOperation_nonpositive (fun _ => Except.ok 7) 0 (by decide)

/-- Body-region entry of the structured pose JSON (geminiService.ts lines
18-26): each region is an object with one description string. -/
structure RegionDesc where
  description : String
deriving DecidableEq, Repr

/-- PoseData interface of geminiService.ts lines 18-26: seven named
body-region descriptions. -/
structure PoseData where
  head : RegionDesc
  torso : RegionDesc
  leftArm : RegionDesc
  rightArm : RegionDesc
  leftLeg : RegionDesc
  rightLeg : RegionDesc
  overall : RegionDesc
deriving DecidableEq, Repr

/-- GenerationResult interface of geminiService.ts lines 28-34. Optional
fields are Options; a field a return site omits is none, matching an absent
property of the returned object literal. -/
structure GenerationResult where
  success : Bool
  generatedImage : Option String
  poseDescription : Option String
  poseData : Option PoseData
  error : Option String
deriving DecidableEq, Repr

/-- CONFIG.POSE_ANALYSIS_MODEL of geminiService.ts line 38. -/
def POSE_ANALYSIS_MODEL : String := "gemini-2.5-flash"

/-- CONFIG.IMAGE_GENERATION_MODEL of geminiService.ts line 39. -/
def IMAGE_GENERATION_MODEL : String := "gemini-3-pro-image-preview"

/-- CONFIG.MAX_RETRIES of geminiService.ts line 40. -/
def MAX_RETRIES : Nat := 3

/-- Template string of geminiService.ts lines 148-158: the markdown block
concatenating the seven region descriptions, then String.trim as in the
source's .trim() call. -/
def formattedDescription (pd : PoseData) : String :=
  ("\n- **Overall:** " ++ pd.overall.description ++
   "\n- **Head:** " ++ pd.head.description ++
   "\n- **Torso:** " ++ pd.torso.description ++
   "\n- **Arms:**\n  - Left: " ++ pd.leftArm.description ++
   "\n  - Right: " ++ pd.rightArm.description ++
   "\n- **Legs:**\n  - Left: " ++ pd.leftLeg.description ++
   "\n  - Right: " ++ pd.rightLeg.description ++
   "\n    ").trim

/-- Message of the Error thrown at geminiService.ts line 144. -/
def poseEmptyMsg : String := "Pose analysis failed. The model did not return a description."

/-- Body of the retried operation of generatePoseDescription (geminiService.ts
lines 132-161). text is response.text of the remote call (none for an absent
field); JS falsiness makes both an absent and an empty text throw. parse
stands for the external JSON.parse plus the PoseData field accesses of the
template: it either yields a full PoseData or throws with some message. -/
def generatePoseDescriptionAttempt (text : Option String)
    (parse : String → Except String PoseData) : Except JsError (String × PoseData) :=
  match text with
  | none => Except.error (JsError.jsError poseEmptyMsg)
  | some t =>
    if t.isEmpty then Except.error (JsError.jsError poseEmptyMsg)
    else
      match parse t.trim with
      | Except.error m => Except.error (JsError.jsError m)
      | Except.ok pd => Except.ok (formattedDescription pd, pd)

/-- Inline data of a response part: data and mimeType may each be absent. -/
structure InlineData where
  data : Option String
  mimeType : Option String
deriving DecidableEq, Repr

/-- One part of a generation response candidate. -/
structure ResponsePart where
  inlineData : Option InlineData
deriving DecidableEq, Repr

/-- Content of a candidate: the parts list may be absent. -/
structure GenContent where
  parts : Option (List ResponsePart)
deriving DecidableEq, Repr

/-- One candidate of a generation response. -/
structure Candidate where
  content : Option GenContent
deriving DecidableEq, Repr

/-- Shape of the remote generation response read by generatePoseImage
(geminiService.ts lines 237-247): only the optional candidates list is
inspected. -/
structure GenResponse where
  candidates : Option (List Candidate)
deriving DecidableEq, Repr

/-- Message of the Error thrown at geminiService.ts line 249. -/
def noImageMsg : String := "Image generation failed. The model did not return an image."

/-- Message standing for the TypeError the JS runtime throws at
geminiService.ts line 239 when candidates is an empty (truthy) array, so
candidates[0] is undefined and reading .content on it fails. -/
def undefinedContentMsg : String := "TypeError: cannot read content of undefined"

/-- Loop of geminiService.ts lines 242-246: return the data of the first part
whose inlineData and inlineData.data are truthy; falling through the loop
reaches the throw at line 249. -/
def findImagePart : List ResponsePart → Except JsError String
  | [] => Except.error (JsError.jsError noImageMsg)
  | p :: rest =>
    match p.inlineData with
    | some idata =>
      match idata.data with
      | some s => if s.isEmpty then findImagePart rest else Except.ok s
      | none => findImagePart rest
    | none => findImagePart rest

/-- Body of the retried operation of generatePoseImage (geminiService.ts lines
226-250). The guard response.candidates && response.candidates[0].content &&
response.candidates[0].content.parts throws a TypeError when candidates is an
empty array (truthy, but candidates[0] is undefined); when the guard is falsy
or the loop finds no image, the NoImageReturned Error is thrown. -/
def generatePoseImageAttempt (r : GenResponse) : Except JsError String :=
  match r.candidates with
  | none => Except.error (JsError.jsError noImageMsg)
  | some [] => Except.error (JsError.jsError undefinedContentMsg)
  | some (c :: _) =>
    match c.content with
    | none => Except.error (JsError.jsError noImageMsg)
    | some content =>
      match content.parts with
      | none => Except.error (JsError.jsError noImageMsg)
      | some parts => findImagePart parts

/-- Parts of the response the image-extraction code ranges over: the first
candidate's parts, an empty list when any link is absent. -/
def responseParts (r : GenResponse) : List ResponsePart :=
  match r.candidates with
  | some (c :: _) =>
    match c.content with
    | some content => content.parts.getD []
    | none => []
  | _ => []

/-- Predicate for an image-bearing part: inlineData present with non-empty
data, the truthiness test of geminiService.ts line 243. -/
def isImagePart (p : ResponsePart) : Bool :=
  match p.inlineData with
  | some idata =>
    match idata.data with
    | some s => !s.isEmpty
    | none => false
  | none => false

/-- Image data of a part, defaulting to the empty string. -/
def partImageData (p : ResponsePart) : String :=
  match p.inlineData with
  | some idata => idata.data.getD ""
  | none => ""

/-- Whether the response contains an image payload among its parts. -/
def hasImagePayload (r : GenResponse) : Bool :=
  (responseParts r).any isImagePart

/-- Value of a span tag: setTag is called with strings, booleans and numbers
in generateWithPose. -/
inductive TagVal where
  | str (s : String)
  | flag (b : Bool)
  | num (n : Nat)
deriving DecidableEq, Repr

/-- Outcome of one HTTP request of the direct Datadog API: a network error
(the request error event of datadogApi.ts) or a response status code. -/
inductive HttpOutcome where
  | networkFail (msg : String)
  | status (code : Nat)
deriving DecidableEq, Repr

/-- What happened to one metric or log delivery: skipped without a request
(no API key), accepted, or dropped after a non-success status or a network
error. Every constructor resolves the promise; none rejects, mirroring that
sendMetric and sendLog call resolve() in all branches. -/
inductive Delivery where
  | skipped
  | sent
  | droppedStatus (code : Nat)
  | droppedNetwork (msg : String)
deriving DecidableEq, Repr

/-- Observable side effects of one generateWithPose run: span operations of
the dd-trace channel, the datadogHelper.recordGeneration call, each remote
generateContent invocation, and each direct-API metric or log delivery. -/
inductive Event where
  | spanStart (name : String) (tags : List (String × TagVal))
  | spanTag (name key : String) (val : TagVal)
  | spanFinish (name : String)
  | recordGeneration (success : Bool)
  | remoteCall (model : String) (attempt : Nat)
  | metric (name : String) (value : Nat) (tags : List String) (mtype : String) (d : Delivery)
  | logLine (message : String) (level : String) (d : Delivery)
deriving DecidableEq, Repr

/-- External world of one generateWithPose invocation: the remote text
response per pose-analysis attempt, the JSON parser, the remote image
response per generation attempt, the Datadog environment configuration of
datadogApi.ts lines 15-18, the measured latency, and the HTTP outcome each
direct-API delivery of the single report would see (two metric posts and one
log post per report). -/
structure Env where
  analyzeText : Nat → Option String
  parse : String → Except String PoseData
  genResponse : Nat → GenResponse
  ddApiKey : Option String
  ddService : String
  ddEnv : String
  latencyMs : Nat
  metricOut1 : HttpOutcome
  metricOut2 : HttpOutcome
  logOut : HttpOutcome

/-- Resolution of one sendMetric promise (datadogApi.ts lines 29-92): no API
key skips the request; otherwise a 202 status is a success and anything else,
including a network error, is logged and swallowed. resolve() is called in
every branch: the function cannot reject. -/
def metricDelivery (apiKey : Option String) (o : HttpOutcome) : Delivery :=
  match apiKey with
  | none => Delivery.skipped
  | some _ =>
    match o with
    | HttpOutcome.networkFail m => Delivery.droppedNetwork m
    | HttpOutcome.status c => if c = 202 then Delivery.sent else Delivery.droppedStatus c

/-- Resolution of one sendLog promise (datadogApi.ts lines 102-153): no API
key skips the request; a 200 or 202 status is a success and anything else is
logged and swallowed. resolve() is called in every branch. -/
def logDelivery (apiKey : Option String) (o : HttpOutcome) : Delivery :=
  match apiKey with
  | none => Delivery.skipped
  | some _ =>
    match o with
    | HttpOutcome.networkFail m => Delivery.droppedNetwork m
    | HttpOutcome.status c =>
      if c = 200 ∨ c = 202 then Delivery.sent else Delivery.droppedStatus c

/-- Tag list built at datadogApi.ts lines 35-39: service and env tags are
prepended to the caller's tags. -/
def allTags (env : Env) (tags : List String) : List String :=
  ("service:" ++ env.ddService) :: ("env:" ++ env.ddEnv) :: tags

/-- Embedding of sendMetric (datadogApi.ts lines 23-92) as the one event it
contributes: the metric with its full tag list and how its delivery ended.
The o argument is the HTTP outcome the request would see. -/
def sendMetric (env : Env) (o : HttpOutcome) (name : String) (value : Nat)
    (tags : List String) (mtype : String) : Event :=
  Event.metric name value (allTags env tags) mtype (metricDelivery env.ddApiKey o)

/-- Embedding of sendLog (datadogApi.ts lines 97-153). -/
def sendLog (env : Env) (o : HttpOutcome) (message level : String) : Event :=
  Event.logLine message level (logDelivery env.ddApiKey o)

/-- LLMMetrics.recordSuccess (datadogApi.ts lines 170-189): a success-tagged
count metric, a latency gauge and an info log line, issued together with
Promise.all; each resolves independently, so the list always has all three
regardless of any delivery failing. -/
def recordSuccess (env : Env) (operationName modelName : String) : List Event :=
  [sendMetric env env.metricOut1 "poseshift.llm.request.count" 1
      ["operation:" ++ operationName, "model:" ++ modelName, "status:success"] "count",
   sendMetric env env.metricOut2 "poseshift.llm.request.latency" env.latencyMs
      ["operation:" ++ operationName, "model:" ++ modelName] "gauge",
   sendLog env env.logOut ("LLM generation completed: " ++ operationName) "info"]

/-- LLMMetrics.recordError (datadogApi.ts lines 191-211): an error-tagged
count metric, an error-count metric and an error log line, same Promise.all
semantics as recordSuccess. -/
def recordError (env : Env) (operationName modelName : String)
    (errorMessage : String) : List Event :=
  [sendMetric env env.metricOut1 "poseshift.llm.request.count" 1
      ["operation:" ++ operationName, "model:" ++ modelName, "status:error"] "count",
   sendMetric env env.metricOut2 "poseshift.llm.error.count" 1
      ["operation:" ++ operationName, "model:" ++ modelName] "count",
   sendLog env env.logOut ("LLM generation failed: " ++ operationName ++ " - " ++ errorMessage)
     "error"]

/-- Remote generateContent invocations of one retried step: each loop
iteration of retryOperation calls the endpoint once, so attempts 1..n each
contribute one call event. -/
def callEvents (model : String) (n : Nat) : List Event :=
  (List.range n).map (fun i => Event.remoteCall model (i + 1))

/-- Retried pose-analysis operation as run inside generateWithPose: attempt
k sees the remote text of env.analyzeText k. -/
def analyzeAttempt (env : Env) (attempt : Nat) : Except JsError (String × PoseData) :=
  generatePoseDescriptionAttempt (env.analyzeText attempt) env.parse

/-- Retried image-generation operation as run inside generateWithPose:
attempt k sees the remote response env.genResponse k. -/
def imageAttempt (env : Env) (attempt : Nat) : Except JsError String :=
  generatePoseImageAttempt (env.genResponse attempt)

/-- Catch-block tail of generateWithPose (geminiService.ts lines 322-339)
followed by the finally block (line 341): parent span tagged with error
status, message and flag, datadogHelper.recordGeneration(false), the
recordError direct report, and the unconditional parent finish. -/
def failTail (env : Env) (msg : String) : List Event :=
  Event.spanTag "full_generation" "llm.status" (TagVal.str "error") ::
  Event.spanTag "full_generation" "error" (TagVal.flag true) ::
  Event.spanTag "full_generation" "error.message" (TagVal.str msg) ::
  Event.recordGeneration false ::
  recordError env "full_generation" "gemini-pipeline" msg ++
  [Event.spanFinish "full_generation"]

/-- Success tail of generateWithPose (geminiService.ts lines 307-321) followed
by the finally block: parent span tagged success and latency,
datadogHelper.recordGeneration(true), the recordSuccess direct report, and the
unconditional parent finish. -/
def successTail (env : Env) : List Event :=
  Event.spanTag "full_generation" "llm.status" (TagVal.str "success") ::
  Event.spanTag "full_generation" "llm.latency_ms" (TagVal.num env.latencyMs) ::
  Event.recordGeneration true ::
  recordSuccess env "full_generation" "gemini-pipeline" ++
  [Event.spanFinish "full_generation"]

/-- Creation tags of the pose-analysis child span (geminiService.ts lines
273-279). -/
def analyzeSpanTags : List (String × TagVal) :=
  [("llm.model", TagVal.str POSE_ANALYSIS_MODEL),
   ("llm.operation", TagVal.str "text_generation")]

/-- Creation tags of the image-generation child span (geminiService.ts lines
288-294). -/
def generateSpanTags : List (String × TagVal) :=
  [("llm.model", TagVal.str IMAGE_GENERATION_MODEL),
   ("llm.operation", TagVal.str "image_generation")]

/-- Embedding of generateWithPose (geminiService.ts lines 257-343). The parent
span creation stands for datadogHelper.startLLMSpan, whose module (datadog.ts)
only opens the span; the deciding control flow here is the try/catch/finally
of geminiService.ts. The pose-analysis child span is started before the
awaited step, so on a pose-analysis failure it is never finished; the parent
finish sits in the finally block and so ends every path. -/
def generateWithPose (env : Env) : GenerationResult × List Event :=
  let aTrace := retryOperation (analyzeAttempt env) MAX_RETRIES
  let pre := Event.spanStart "full_generation" [] ::
    Event.spanStart "llm.pose_analysis" analyzeSpanTags ::
    callEvents POSE_ANALYSIS_MODEL aTrace.invocations
  match aTrace.result with
  | Except.error err =>
    (⟨false, none, none, none, some (errMessage err)⟩,
     pre ++ failTail env (errMessage err))
  | Except.ok fd =>
    let gTrace := retryOperation (imageAttempt env) MAX_RETRIES
    let mid := Event.spanTag "llm.pose_analysis" "llm.status" (TagVal.str "success") ::
      Event.spanFinish "llm.pose_analysis" ::
      Event.spanStart "llm.image_generation" generateSpanTags ::
      callEvents IMAGE_GENERATION_MODEL gTrace.invocations
    match gTrace.result with
    | Except.error err =>
      (⟨false, none, none, none, some (errMessage err)⟩,
       pre ++ (mid ++ failTail env (errMessage err)))
    | Except.ok img =>
      (⟨true, some img, some fd.1, some fd.2, none⟩,
       pre ++ (mid ++
         (Event.spanTag "llm.image_generation" "llm.status" (TagVal.str "success") ::
          Event.spanFinish "llm.image_generation" :: successTail env)))

/-- Predicate for the parent span finish event. -/
def isParentFinish : Event → Bool
  | Event.spanFinish n => n == "full_generation"
  | _ => false

/-- Predicate for the llm.status tag of the parent span. -/
def isParentStatusTag : Event → Bool
  | Event.spanTag n k _ => n == "full_generation" && k == "llm.status"
  | _ => false

/-- Predicate for the request-count metric, the marker each direct report
(recordSuccess as well as recordError) emits exactly once. -/
def isRequestCount : Event → Bool
  | Event.metric n _ _ _ _ => n == "poseshift.llm.request.count"
  | _ => false

/-- Predicate for the latency gauge metric of recordSuccess. -/
def isLatencyGauge : Event → Bool
  | Event.metric n _ _ _ _ => n == "poseshift.llm.request.latency"
  | _ => false

/-- Predicate for a direct-API log line. -/
def isLogEvent : Event → Bool
  | Event.logLine _ _ _ => true
  | _ => false

/-- Whether a delivery issued an HTTP request at all. -/
def deliveryAttempted : Delivery → Bool
  | Delivery.skipped => false
  | _ => true

/-- Whether an event stands for a direct-API delivery that issued an HTTP
request. -/
def attemptsHttp : Event → Bool
  | Event.metric _ _ _ _ d => deliveryAttempted d
  | Event.logLine _ _ d => deliveryAttempted d
  | _ => false

theorem callEvents_all_remote (model : String) (n : Nat) :
    ∀ ev ∈ callEvents model n, ∃ a, ev = Event.remoteCall model a := by
  intro ev hev
  simp only [callEvents, List.mem_map, List.mem_range] at hev
  obtain ⟨i, _, hevv⟩ := hev
  exact ⟨i + 1, hevv.symm⟩

theorem countP_callEvents_eq_zero (p : Event → Bool) (model : String) (n : Nat)
    (h : ∀ a, p (Event.remoteCall model a) = false) :
    (callEvents model n).countP p = 0 := by
  rw [List.countP_eq_zero]
  intro ev hev
  obtain ⟨a, rfl⟩ := callEvents_all_remote model n ev hev
  simp [h]

theorem countP_callEvents_parentFinish (model : String) (n : Nat) :
    (callEvents model n).countP isParentFinish = 0 :=
  countP_callEvents_eq_zero _ _ _ (fun _ => rfl)

theorem countP_callEvents_parentStatusTag (model : String) (n : Nat) :
    (callEvents model n).countP isParentStatusTag = 0 :=
  countP_callEvents_eq_zero _ _ _ (fun _ => rfl)

theorem countP_callEvents_requestCount (model : String) (n : Nat) :
    (callEvents model n).countP isRequestCount = 0 :=
  countP_callEvents_eq_zero _ _ _ (fun _ => rfl)

theorem countP_callEvents_latencyGauge (model : String) (n : Nat) :
    (callEvents model n).countP isLatencyGauge = 0 :=
  countP_callEvents_eq_zero _ _ _ (fun _ => rfl)

theorem countP_callEvents_logEvent (model : String) (n : Nat) :
    (callEvents model n).countP isLogEvent = 0 :=
  countP_callEvents_eq_zero _ _ _ (fun _ => rfl)

theorem countP_callEvents_attemptsHttp (model : String) (n : Nat) :
    (callEvents model n).countP attemptsHttp = 0 :=
  countP_callEvents_eq_zero _ _ _ (fun _ => rfl)

theorem findImagePart_spec (ps : List ResponsePart) :
    findImagePart ps =
      match ps.find? isImagePart with
      | some p => Except.ok (partImageData p)
      | none => Except.error (JsError.jsError noImageMsg) := by
  induction ps with
  | nil => rfl
  | cons p rest ih =>
    obtain ⟨idata⟩ := p
    cases idata with
    | none => simpa [findImagePart, isImagePart, List.find?_cons] using ih
    | some d =>
      obtain ⟨dat, mt⟩ := d
      cases dat with
      | none => simpa [findImagePart, isImagePart, List.find?_cons] using ih
      | some s =>
        by_cases hs : s.isEmpty
        · simpa [findImagePart, isImagePart, hs, List.find?_cons] using ih
        · simp [findImagePart, isImagePart, hs, partImageData, List.find?_cons]

/-- C8 (amended): provided the candidates list, when present, is non-empty, a
single attempt of the retried body of generatePoseImage fails with the
NoImageReturned error exactly when the response holds no image-bearing part,
and otherwise returns the data of the first image-bearing part, ignoring any
later ones. (With an empty candidates list the attempt instead fails with a
TypeError, see the counterexample.) -/
theorem generatePoseImageAttempt_spec (r : GenResponse)
    (h : r.candidates ≠ some []) :
    generatePoseImageAttempt r =
      match (responseParts r).find? isImagePart with
      | some p => Except.ok (partImageData p)
      | none => Except.error (JsError.jsError noImageMsg) := by
  obtain ⟨cands⟩ := r
  cases cands with
  | none => rfl
  | some l =>
    cases l with
    | nil => exact absurd rfl h
    | cons c rest =>
      obtain ⟨content⟩ := c
      cases content with
      | none => rfl
      | some ct =>
        obtain ⟨parts⟩ := ct
        cases parts with
        | none => rfl
        | some ps =>
          simpa [generatePoseImageAttempt, responseParts] using findImagePart_spec ps

/-- Counterexample to C8 as stated: a response whose candidates list is
present but empty contains no image payload among its parts, yet the attempt
does not fail with the NoImageReturned error: the field access
candidates[0].content raises a TypeError instead. -/
theorem generatePoseImageAttempt_empty_candidates :
    hasImagePayload (GenResponse.mk (some [])) = false ∧
    generatePoseImageAttempt (GenResponse.mk (some [])) ≠
      Except.error (JsError.jsError noImageMsg) ∧
    generatePoseImageAttempt (GenResponse.mk (some [])) =
      Except.error (JsError.jsError undefinedContentMsg) := by
  refine ⟨rfl, ?_, rfl⟩
  simp [generatePoseImageAttempt, undefinedContentMsg, noImageMsg]

/-- Response with one image-free part followed by an image-bearing part, used
to instantiate the amended C8. -/
def imageResponseExample : GenResponse :=
  GenResponse.mk (some [Candidate.mk (some (GenContent.mk (some
    [ResponsePart.mk none,
     ResponsePart.mk (some (InlineData.mk (some "imgdata") (some "image/png")))])))])

/-- Witness for the amended C8 at a concrete response: the first image-bearing
part's data is returned. -/
theorem generatePoseImageAttempt_spec_witness :
    generatePoseImageAttempt imageResponseExample = Except.ok "imgdata" := by
  have h := generatePoseImageAttempt_spec imageResponseExample (by simp [imageResponseExample])
  simpa [imageResponseExample, responseParts, isImagePart, partImageData] using h

/-- C6: every GenerationResult returned by generateWithPose populates exactly
one branch: on success the generated image, pose description and pose data are
present and the error absent; on failure the error is present and the other
three absent. -/
theorem generateWithPose_exclusive_branches (env : Env) :
    ((generateWithPose env).1.success = true →
       ((generateWithPose env).1.generatedImage.isSome ∧
        (generateWithPose env).1.poseDescription.isSome ∧
        (generateWithPose env).1.poseData.isSome ∧
        (generateWithPose env).1.error = none)) ∧
    ((generateWithPose env).1.success = false →
       ((generateWithPose env).1.error.isSome ∧
        (generateWithPose env).1.generatedImage = none ∧
        (generateWithPose env).1.poseDescription = none ∧
        (generateWithPose env).1.poseData = none)) := by
  rcases hres : (retryOperation (analyzeAttempt env) MAX_RETRIES).result with err | fd
  · simp [generateWithPose, hres]
  · rcases hres2 : (retryOperation (imageAttempt env) MAX_RETRIES).result with err2 | img
    · simp [generateWithPose, hres, hres2]
    · simp [generateWithPose, hres, hres2]

/-- Replacement of the telemetry-delivery slice of the environment: API key
and the HTTP outcomes of the report's two metric posts and one log post. The
remote-generation oracles are untouched. -/
def setTelemetry (env : Env) (k : Option String) (o1 o2 ol : HttpOutcome) : Env :=
  ⟨env.analyzeText, env.parse, env.genResponse, k, env.ddService, env.ddEnv,
   env.latencyMs, o1, o2, ol⟩

/-- C5: sendMetric and sendLog never raise (each Delivery constructor is a
resolved promise), so for every combination of delivery failures the returned
GenerationResult of generateWithPose is unchanged, and within one report the
three sub-deliveries all complete: recordSuccess and recordError always yield
all three events whatever the API key and HTTP outcomes. -/
theorem generateWithPose_outcome_delivery_independent (env : Env)
    (k : Option String) (o1 o2 ol : HttpOutcome) :
    (generateWithPose (setTelemetry env k o1 o2 ol)).1 = (generateWithPose env).1 ∧
    (∀ opName mName,
       (recordSuccess (setTelemetry env k o1 o2 ol) opName mName).length = 3) ∧
    (∀ opName mName msg,
       (recordError (setTelemetry env k o1 o2 ol) opName mName msg).length = 3) := by
  have ha : analyzeAttempt (setTelemetry env k o1 o2 ol) = analyzeAttempt env := rfl
  have hg : imageAttempt (setTelemetry env k o1 o2 ol) = imageAttempt env := rfl
  refine ⟨?_, fun _ _ => rfl, fun _ _ _ => rfl⟩
  rcases hres : (retryOperation (analyzeAttempt env) MAX_RETRIES).result with err | fd
  · simp [generateWithPose, ha, hg, hres]
  · rcases hres2 : (retryOperation (imageAttempt env) MAX_RETRIES).result with err2 | img
    · simp [generateWithPose, ha, hg, hres, hres2]
    · simp [generateWithPose, ha, hg, hres, hres2]

/-- C4: every generateWithPose run finishes the parent span exactly once (the
finish lies in the finally cleanup), emits exactly one direct report (tracked
by the request-count metric both report paths emit exactly once), tags the
parent span's llm.status exactly once, and the status tag value and the
report's status tag agree with the returned success flag. -/
theorem generateWithPose_span_report_agree (env : Env) :
    (generateWithPose env).2.countP isParentFinish = 1 ∧
    (generateWithPose env).2.countP isParentStatusTag = 1 ∧
    (generateWithPose env).2.countP isRequestCount = 1 ∧
    Event.spanTag "full_generation" "llm.status"
      (TagVal.str (if (generateWithPose env).1.success then "success" else "error"))
      ∈ (generateWithPose env).2 ∧
    (sendMetric env env.metricOut1 "poseshift.llm.request.count" 1
       ["operation:full_generation", "model:gemini-pipeline",
        if (generateWithPose env).1.success then "status:success" else "status:error"] "count")
      ∈ (generateWithPose env).2 := by
  rcases hres : (retryOperation (analyzeAttempt env) MAX_RETRIES).result with err | fd
  · simp [generateWithPose, hres, failTail, recordError, sendMetric, sendLog,
      List.countP_append, List.countP_cons, countP_callEvents_parentFinish,
      countP_callEvents_parentStatusTag, countP_callEvents_requestCount,
      isParentFinish, isParentStatusTag, isRequestCount]
  · rcases hres2 : (retryOperation (imageAttempt env) MAX_RETRIES).result with err2 | img
    · simp [generateWithPose, hres, hres2, failTail, recordError, sendMetric, sendLog,
        List.countP_append, List.countP_cons, countP_callEvents_parentFinish,
        countP_callEvents_parentStatusTag, countP_callEvents_requestCount,
        isParentFinish, isParentStatusTag, isRequestCount]
    · simp [generateWithPose, hres, hres2, successTail, recordSuccess, sendMetric, sendLog,
        List.countP_append, List.countP_cons, countP_callEvents_parentFinish,
        countP_callEvents_parentStatusTag, countP_callEvents_requestCount,
        isParentFinish, isParentStatusTag, isRequestCount]

/-- C10: without the DD_API_KEY configuration, sendMetric and sendLog resolve
immediately without issuing an HTTP request, so every direct-report path
completes with all three events present and zero HTTP deliveries, and the
whole generateWithPose run issues no direct-API HTTP request at all. -/
theorem generateWithPose_no_key_no_http (env : Env) (h : env.ddApiKey = none) :
    (∀ o, metricDelivery env.ddApiKey o = Delivery.skipped) ∧
    (∀ o, logDelivery env.ddApiKey o = Delivery.skipped) ∧
    (generateWithPose env).2.countP attemptsHttp = 0 ∧
    (∀ opName mName, (recordSuccess env opName mName).length = 3 ∧
       (recordSuccess env opName mName).countP attemptsHttp = 0) ∧
    (∀ opName mName msg, (recordError env opName mName msg).length = 3 ∧
       (recordError env opName mName msg).countP attemptsHttp = 0) := by
  refine ⟨fun o => by simp [metricDelivery, h], fun o => by simp [logDelivery, h], ?_, ?_, ?_⟩
  · rcases hres : (retryOperation (analyzeAttempt env) MAX_RETRIES).result with err | fd
    · simp [generateWithPose, hres, failTail, recordError, sendMetric, sendLog,
        metricDelivery, logDelivery, h, List.countP_append, List.countP_cons,
        countP_callEvents_attemptsHttp, attemptsHttp, deliveryAttempted]
    · rcases hres2 : (retryOperation (imageAttempt env) MAX_RETRIES).result with err2 | img
      · simp [generateWithPose, hres, hres2, failTail, recordError, sendMetric, sendLog,
          metricDelivery, logDelivery, h, List.countP_append, List.countP_cons,
          countP_callEvents_attemptsHttp, attemptsHttp, deliveryAttempted]
      · simp [generateWithPose, hres, hres2, successTail, recordSuccess, sendMetric, sendLog,
          metricDelivery, logDelivery, h, List.countP_append, List.countP_cons,
          countP_callEvents_attemptsHttp, attemptsHttp, deliveryAttempted]
  · intro opName mName
    refine ⟨rfl, ?_⟩
    simp [recordSuccess, sendMetric, sendLog, metricDelivery, logDelivery, h,
      List.countP_cons, attemptsHttp, deliveryAttempted]
  · intro opName mName msg
    refine ⟨rfl, ?_⟩
    simp [recordError, sendMetric, sendLog, metricDelivery, logDelivery, h,
      List.countP_cons, attemptsHttp, deliveryAttempted]

/-- Environment with no Datadog API key configured: pose analysis fails on
every attempt, which does not matter for the no-HTTP property. -/
def envNoKey : Env :=
  ⟨fun _ => none, fun _ => Except.error "unparsed", fun _ => GenResponse.mk none,
   none, "poseshift-ai", "prod", 5,
   HttpOutcome.status 202, HttpOutcome.status 202, HttpOutcome.status 200⟩

/-- Witness for C10: with no API key, a full run records zero HTTP
deliveries. -/
theorem generateWithPose_no_key_no_http_witness :
    (generateWithPose envNoKey).2.countP attemptsHttp = 0 :=
  (generateWithPose_no_key_no_http envNoKey rfl).2.2.1

/-- C3: when pose analysis fails on all three attempts, generateWithPose never
invokes the image-generation remote call, returns success false with the
message of the error propagated from attempt 3, does not raise, and the
parent span is still finished and tagged with status error. -/
theorem generateWithPose_analysis_failure (env : Env) (e : Nat → JsError)
    (hfail : ∀ k, 1 ≤ k → k ≤ 3 → analyzeAttempt env k = Except.error (e k)) :
    (generateWithPose env).1 =
      GenerationResult.mk false none none none (some (errMessage (some (e 3)))) ∧
    (∀ a, Event.remoteCall IMAGE_GENERATION_MODEL a ∉ (generateWithPose env).2) ∧
    Event.spanFinish "full_generation" ∈ (generateWithPose env).2 ∧
    Event.spanTag "full_generation" "llm.status" (TagVal.str "error")
      ∈ (generateWithPose env).2 := by
  have htr : retryOperation (analyzeAttempt env) MAX_RETRIES =
      ⟨3, 2, Except.error (some (e 3))⟩ := by
    have h := retryLoop_all_fail (analyzeAttempt env) e 3 2 1 none 0 0
      (by omega) (le_refl 1) hfail
    rw [MAX_RETRIES, retryOperation]
    simpa using h
  refine ⟨?_, ?_, ?_, ?_⟩
  · simp [generateWithPose, htr]
  · intro a
    simp [generateWithPose, htr, failTail, recordError, sendMetric, sendLog,
      callEvents, IMAGE_GENERATION_MODEL, POSE_ANALYSIS_MODEL, List.range_succ]
  · simp [generateWithPose, htr, failTail]
  · simp [generateWithPose, htr, failTail]

/-- Environment in which the remote analysis endpoint returns no text on any
attempt, the empty-text scenario of the spec. -/
def envAnalyzeEmpty : Env :=
  ⟨fun _ => none, fun _ => Except.error "unparsed", fun _ => GenResponse.mk none,
   some "key", "poseshift-ai", "prod", 5,
   HttpOutcome.status 202, HttpOutcome.status 202, HttpOutcome.status 200⟩

/-- Witness for C3: empty text on all three attempts yields the
pose-analysis-failed outcome with the exact propagated message. -/
theorem generateWithPose_analysis_failure_witness :
    (generateWithPose envAnalyzeEmpty).1 =
      GenerationResult.mk false none none none (some poseEmptyMsg) :=
  (generateWithPose_analysis_failure envAnalyzeEmpty
    (fun _ => JsError.jsError poseEmptyMsg) (fun _ _ _ => rfl)).1

/-- C7: with a first-attempt analysis response parsing into the seven region
descriptions and a first-attempt generation response carrying a base64 image,
generateWithPose returns success true with that exact image and the formatted
concatenation of the seven region fields, records exactly one success
metric/log triple (success-tagged count, latency gauge, log line), and
finishes the parent span exactly once, tagged success. -/
theorem generateWithPose_success_scenario (env : Env) (t : String) (pd : PoseData)
    (img : String)
    (h1 : env.analyzeText 1 = some t) (h2 : t.isEmpty = false)
    (h3 : env.parse t.trim = Except.ok pd)
    (h4 : env.genResponse 1 = GenResponse.mk (some [Candidate.mk (some (GenContent.mk
        (some [ResponsePart.mk (some (InlineData.mk (some img) (some "image/png")))])))]))
    (h5 : img.isEmpty = false) :
    (generateWithPose env).1 =
      GenerationResult.mk true (some img) (some (formattedDescription pd)) (some pd) none ∧
    (generateWithPose env).2.countP isRequestCount = 1 ∧
    (generateWithPose env).2.countP isLatencyGauge = 1 ∧
    (generateWithPose env).2.countP isLogEvent = 1 ∧
    (generateWithPose env).2.countP isParentFinish = 1 ∧
    Event.spanTag "full_generation" "llm.status" (TagVal.str "success")
      ∈ (generateWithPose env).2 ∧
    (sendMetric env env.metricOut1 "poseshift.llm.request.count" 1
       ["operation:full_generation", "model:gemini-pipeline", "status:success"] "count")
      ∈ (generateWithPose env).2 := by
  have hok : analyzeAttempt env 1 = Except.ok (formattedDescription pd, pd) := by
    simp [analyzeAttempt, generatePoseDescriptionAttempt, h1, h2, h3]
  have hta : retryOperation (analyzeAttempt env) MAX_RETRIES =
      ⟨1, 0, Except.ok (formattedDescription pd, pd)⟩ := by
    have h := retryLoop_first_success (analyzeAttempt env) (formattedDescription pd, pd)
      3 1 0 1 none 0 0 (by omega) (le_refl 1) (by omega)
      (fun k hk hk2 => absurd hk2 (by omega)) hok
    rw [MAX_RETRIES, retryOperation]
    simpa using h
  have gok : imageAttempt env 1 = Except.ok img := by
    simp [imageAttempt, h4, generatePoseImageAttempt, findImagePart, h5]
  have htg : retryOperation (imageAttempt env) MAX_RETRIES = ⟨1, 0, Except.ok img⟩ := by
    have h := retryLoop_first_success (imageAttempt env) img 3 1 0 1 none 0 0
      (by omega) (le_refl 1) (by omega) (fun k hk hk2 => absurd hk2 (by omega)) gok
    rw [MAX_RETRIES, retryOperation]
    simpa using h
  refine ⟨by simp [generateWithPose, hta, htg], ?_, ?_, ?_, ?_, ?_, ?_⟩ <;>
    simp [generateWithPose, hta, htg, successTail, recordSuccess, sendMetric, sendLog,
      List.countP_append, List.countP_cons,
      countP_callEvents_requestCount, countP_callEvents_latencyGauge,
      countP_callEvents_logEvent, countP_callEvents_parentFinish,
      isRequestCount, isLatencyGauge, isLogEvent, isParentFinish]

/-- Concrete seven-region pose description. -/
def pdExample : PoseData :=
  ⟨⟨"head tilt"⟩, ⟨"torso lean"⟩, ⟨"left arm up"⟩, ⟨"right arm down"⟩,
   ⟨"left leg bent"⟩, ⟨"right leg straight"⟩, ⟨"balanced stance"⟩⟩

/-- Environment of the success scenario: first-attempt analysis text parsing
into pdExample, first-attempt generation response carrying a base64 image. -/
def envSuccess : Env :=
  ⟨fun _ => some "posejson", fun _ => Except.ok pdExample,
   fun _ => GenResponse.mk (some [Candidate.mk (some (GenContent.mk
     (some [ResponsePart.mk (some (InlineData.mk (some "img64") (some "image/png")))])))]),
   some "key", "poseshift-ai", "prod", 7,
   HttpOutcome.status 202, HttpOutcome.status 202, HttpOutcome.status 200⟩

/-- Witness for C7 at the concrete success environment. -/
theorem generateWithPose_success_scenario_witness :
    (generateWithPose envSuccess).1 =
      GenerationResult.mk true (some "img64") (some (formattedDescription pdExample))
        (some pdExample) none :=
  (generateWithPose_success_scenario envSuccess "posejson" pdExample "img64"
    rfl rfl rfl rfl rfl).1
